import Mathlib

/-!
Shallow embedding of the MSS SPI master/slave loopback demo
(application code running on hart u54_1).

The demo configures SPI0 as master (controller) and SPI1 as slave
(responder).  The slave holds a 4-row response table of 8-byte packets;
a command handler fires once the 1-byte command prefix of a frame has
been received and stages the matching table row (row 0 as fallback) as
the outgoing reply.  The master loops forever, sending a 5-byte frame
header {cmd_idx, 0x01, 0x02, 0x03, 0xAA} and capturing the 8-byte reply,
then advancing cmd_idx cyclically through 0..3.  An overflow handler
re-enables whichever SPI peripheral signalled the overflow.
-/

namespace SpiLoopback

/-- Macro `COMMAND_BYTE_SIZE` (1U) from the demo source. -/
def COMMAND_BYTE_SIZE : Nat := 1

/-- Macro `NB_OF_TURNAROUND_BYTES` (4U) from the demo source. -/
def NB_OF_TURNAROUND_BYTES : Nat := 4

/-- Macro `SLAVE_NB_OF_COMMANDS` (4U) from the demo source. -/
def SLAVE_NB_OF_COMMANDS : Nat := 4

/-- Macro `SLAVE_PACKET_LENGTH` (8U) from the demo source. -/
def SLAVE_PACKET_LENGTH : Nat := 8

/-- Initializer of the global 4 x 8 array `g_slave_tx_buffer`: data
returned by the SPI slave based on the received command byte. -/
def g_slave_tx_buffer : List (List Nat) :=
  [[0x01, 0x02, 0x03, 0x04, 0x05, 0x06, 0x07, 0x08],
   [0x11, 0x12, 0x13, 0x14, 0x15, 0x16, 0x17, 0x18],
   [0x21, 0x22, 0x23, 0x24, 0x25, 0x26, 0x27, 0x28],
   [0x31, 0x32, 0x33, 0x34, 0x35, 0x36, 0x37, 0x38]]

/-- A staged command response: a byte offset into the flat memory of the
slave transmit table (the C code passes the pointer
`&g_slave_tx_buffer[index][0]`, i.e. offset `8 * index` from the array
base) together with a transmit length in bytes. -/
structure CmdResponse where
  offset : Nat
  length : Nat
deriving DecidableEq

/-- Observable state of the demo: the global buffers, the master loop's
`cmd_idx`, the slave's currently staged transmit window, and the
enabled/reset status of the two SPI peripherals. -/
structure SystemState where
  slave_tx_buffer : List (List Nat)
  master_tx_buffer : List Nat
  master_rx_buffer : List Nat
  cmd_idx : Nat
  staged : CmdResponse
  spi0_on : Bool
  spi1_on : Bool
deriving DecidableEq

/-- The bytes the slave will actually shift out for its staged response:
`length` bytes of the flat slave transmit memory starting at `offset`. -/
def stagedBytes (s : SystemState) : List Nat :=
  ((s.slave_tx_buffer.flatten).drop s.staged.offset).take s.staged.length

/-- `MSS_SPI_set_cmd_response(&g_mss_spi1_lo, p_response, len)`: records
the response pointer (as a byte offset into the slave transmit table)
and length to be transmitted for the in-flight frame. -/
def MSS_SPI_set_cmd_response (s : SystemState) (off len : Nat) : SystemState :=
  { s with staged := ⟨off, len⟩ }

/-- `spi1_slave_cmd_handler(rx_buff, rx_size)`: called by the SPI slave
driver once the command byte is received.  Reads `index = rx_buff[0]`;
if `index < SLAVE_NB_OF_COMMANDS` stages `&g_slave_tx_buffer[index][0]`
(offset `SLAVE_PACKET_LENGTH * index`), otherwise stages
`&g_slave_tx_buffer[0][0]` (offset 0); the staged length is always
`SLAVE_PACKET_LENGTH`. -/
def spi1_slave_cmd_handler (s : SystemState) (rx_buff : List Nat) : SystemState :=
  let index := rx_buff.headD 0
  let p_response : Nat :=
    if index < SLAVE_NB_OF_COMMANDS then SLAVE_PACKET_LENGTH * index else 0
  MSS_SPI_set_cmd_response s p_response SLAVE_PACKET_LENGTH

/-- `spi1_block_rx_handler(rx_buff, rx_size)`: SPI slave receive
completion handler.  Its body is empty in the source. -/
def spi1_block_rx_handler (s : SystemState) (rx_buff : List Nat) : SystemState :=
  s

/-- `mss_spi_overflow_handler(mss_spi_core)`: called by the SPI driver on
buffer overflow.  `if (mss_spi_core)` (any nonzero value) it takes SPI1
out of reset via `mss_config_clk_rst(MSS_PERIPH_SPI1, ..., PERIPHERAL_ON)`,
else it takes SPI0 out of reset.  Nothing else is touched. -/
def mss_spi_overflow_handler (core : Nat) (s : SystemState) : SystemState :=
  if core ≠ 0 then
    { s with spi1_on := true }
  else
    { s with spi0_on := true }

/-- The `cmd_idx` advance at the bottom of the `u54_1` infinite loop:
`if (3u == cmd_idx) cmd_idx = 0u; else ++cmd_idx;` (the increment is on
a `uint8_t`, hence the mod 256). -/
def advance_cmd_idx (c : Nat) : Nat :=
  if c = 3 then 0 else (c + 1) % 256

/-- State after the initialization section of `u54_1`, before the first
loop iteration: `g_slave_tx_buffer` holds its initializer,
`g_master_tx_buffer = {0x00, 0x01, 0x02, 0x03, 0xAA}`,
`g_master_rx_buffer` is 8 zero bytes, `cmd_idx = 0`, and
`MSS_SPI_set_slave_block_buffers` has staged `&g_slave_tx_buffer[0][0]`
with length `COMMAND_BYTE_SIZE + NB_OF_TURNAROUND_BYTES`.  Both SPI
peripherals have been taken out of reset. -/
def initState : SystemState :=
  { slave_tx_buffer := g_slave_tx_buffer
    master_tx_buffer := [0x00, 0x01, 0x02, 0x03, 0xAA]
    master_rx_buffer := List.replicate 8 0
    cmd_idx := 0
    staged := ⟨0, COMMAND_BYTE_SIZE + NB_OF_TURNAROUND_BYTES⟩
    spi0_on := true
    spi1_on := true }

/-- One iteration of the `u54_1` infinite loop: the master performs a
block transfer of its 5-byte transmit buffer; during the frame the slave
command handler fires on the command byte (`g_master_tx_buffer[0]`) and
stages the reply, whose bytes ride back in the same frame into
`g_master_rx_buffer`; the no-op receive-completion handler fires; then
`cmd_idx` is advanced and written into `g_master_tx_buffer[0]`. -/
def transfer_cycle (s : SystemState) : SystemState :=
  let cmd := s.master_tx_buffer.headD 0
  let s1 := spi1_slave_cmd_handler s [cmd]
  let s2 := { s1 with master_rx_buffer := stagedBytes s1 }
  let s3 := spi1_block_rx_handler s2 s.master_tx_buffer
  let c := advance_cmd_idx s3.cmd_idx
  { s3 with cmd_idx := c, master_tx_buffer := s3.master_tx_buffer.set 0 c }

/-- The system state after `n` complete loop iterations starting from
the freshly initialized state. -/
def controller_run (n : Nat) : SystemState :=
  transfer_cycle^[n] initState

/-- The command byte the master transmits during loop iteration `n`
(byte 0 of its transmit buffer when the block transfer starts). -/
def cmd_transmitted (n : Nat) : Nat :=
  (controller_run n).master_tx_buffer.headD 0

/-- The state in which the master is about to issue a frame whose
command byte is `c`: exactly what the loop produces when it writes `c`
into `g_master_tx_buffer[0]`. -/
def frame_with_cmd (c : Nat) : SystemState :=
  { initState with master_tx_buffer := initState.master_tx_buffer.set 0 c }

/-! ## Helper lemmas -/

/-- Field-by-field description of one transfer cycle. -/
theorem transfer_cycle_fields (s : SystemState) :
    (transfer_cycle s).slave_tx_buffer = s.slave_tx_buffer
  ∧ (transfer_cycle s).master_rx_buffer =
      stagedBytes (spi1_slave_cmd_handler s [s.master_tx_buffer.headD 0])
  ∧ (transfer_cycle s).cmd_idx = advance_cmd_idx s.cmd_idx
  ∧ (transfer_cycle s).master_tx_buffer =
      s.master_tx_buffer.set 0 (advance_cmd_idx s.cmd_idx)
  ∧ (transfer_cycle s).staged =
      (spi1_slave_cmd_handler s [s.master_tx_buffer.headD 0]).staged
  ∧ (transfer_cycle s).spi0_on = s.spi0_on
  ∧ (transfer_cycle s).spi1_on = s.spi1_on :=
  ⟨rfl, rfl, rfl, rfl, rfl, rfl, rfl⟩

/-- The command handler only rewrites the staged response. -/
theorem cmd_handler_fields (s : SystemState) (rx_buff : List Nat) :
    (spi1_slave_cmd_handler s rx_buff).slave_tx_buffer = s.slave_tx_buffer
  ∧ (spi1_slave_cmd_handler s rx_buff).master_tx_buffer = s.master_tx_buffer
  ∧ (spi1_slave_cmd_handler s rx_buff).master_rx_buffer = s.master_rx_buffer
  ∧ (spi1_slave_cmd_handler s rx_buff).cmd_idx = s.cmd_idx
  ∧ (spi1_slave_cmd_handler s rx_buff).spi0_on = s.spi0_on
  ∧ (spi1_slave_cmd_handler s rx_buff).spi1_on = s.spi1_on
  ∧ (spi1_slave_cmd_handler s rx_buff).staged =
      ⟨if rx_buff.headD 0 < SLAVE_NB_OF_COMMANDS
        then SLAVE_PACKET_LENGTH * rx_buff.headD 0 else 0,
       SLAVE_PACKET_LENGTH⟩ :=
  ⟨rfl, rfl, rfl, rfl, rfl, rfl, rfl⟩

/-- Reading 8 bytes at offset `8 * i` of the flat table memory yields
row `i`, for every valid row index. -/
theorem flat_table_row (i : Nat) (hi : i < 4) :
    ((g_slave_tx_buffer.flatten).drop (8 * i)).take 8 =
      g_slave_tx_buffer.getD i [] := by
  interval_cases i <;> rfl

/-- The staged bytes of the handler's output, when the table holds its
initializer: table row `min index 3`-style dispatch — row `index` when
in range, row 0 otherwise. -/
theorem handler_stagedBytes (s : SystemState) (c : Nat)
    (ht : s.slave_tx_buffer = g_slave_tx_buffer) :
    stagedBytes (spi1_slave_cmd_handler s [c]) =
      g_slave_tx_buffer.getD (if c < 4 then c else 0) [] := by
  unfold stagedBytes spi1_slave_cmd_handler MSS_SPI_set_cmd_response
  simp only [List.headD, SLAVE_NB_OF_COMMANDS, SLAVE_PACKET_LENGTH, ht]
  by_cases hc : c < 4
  · simp only [hc, if_pos hc, if_true]
    exact flat_table_row c hc
  · simp only [hc, if_neg hc, if_false]
    exact flat_table_row 0 (by norm_num)

/-- `advance_cmd_idx` agrees with +1 mod 4 on residues. -/
theorem advance_cmd_idx_mod (n : Nat) :
    advance_cmd_idx (n % 4) = (n + 1) % 4 := by
  unfold advance_cmd_idx
  have h : n % 4 < 4 := Nat.mod_lt n (by norm_num)
  by_cases h3 : n % 4 = 3
  · simp only [h3, if_true, if_pos]
    omega
  · rw [if_neg h3]
    omega

/-- Loop invariant: after `n` iterations the transmit buffer is
`{n % 4, 0x01, 0x02, 0x03, 0xAA}`, `cmd_idx = n % 4`, and the slave
transmit table still holds its initializer. -/
theorem controller_run_inv (n : Nat) :
    (controller_run n).master_tx_buffer = [n % 4, 0x01, 0x02, 0x03, 0xAA]
  ∧ (controller_run n).cmd_idx = n % 4
  ∧ (controller_run n).slave_tx_buffer = g_slave_tx_buffer := by
  induction n with
  | zero => exact ⟨rfl, rfl, rfl⟩
  | succ n ih =>
    obtain ⟨htx, hidx, htbl⟩ := ih
    have hstep : controller_run (n + 1) = transfer_cycle (controller_run n) := by
      unfold controller_run
      exact Function.iterate_succ_apply' transfer_cycle n initState
    obtain ⟨f1, f2, f3, f4, f5, f6, f7⟩ := transfer_cycle_fields (controller_run n)
    have hadv : advance_cmd_idx (controller_run n).cmd_idx = (n + 1) % 4 := by
      rw [hidx]; exact advance_cmd_idx_mod n
    refine ⟨?_, ?_, ?_⟩
    · rw [hstep, f4, hadv, htx]; rfl
    · rw [hstep, f3, hadv]
    · rw [hstep, f1, htbl]

/-- A valid table row is a full 8-byte packet. -/
theorem table_row_length (i : Nat) (hi : i < 4) :
    (g_slave_tx_buffer.getD i []).length = SLAVE_PACKET_LENGTH := by
  interval_cases i <;> rfl

/-! ## Claim theorems -/

/-- Claim C1: for every command byte `i < SLAVE_NB_OF_COMMANDS`, the
command handler, fired once the 1-byte command prefix of a frame has
been received, stages table row `i` as the outgoing reply, so the
8-byte reply the master captures for that frame equals
`g_slave_tx_buffer[i]`. -/
theorem reply_matches_table_row (i : Nat) (hi : i < SLAVE_NB_OF_COMMANDS)
    (s : SystemState) (ht : s.slave_tx_buffer = g_slave_tx_buffer)
    (hc : s.master_tx_buffer.headD 0 = i) :
    (transfer_cycle s).master_rx_buffer = g_slave_tx_buffer.getD i []
  ∧ (transfer_cycle s).master_rx_buffer.length = SLAVE_PACKET_LENGTH := by
  have hi4 : i < 4 := hi
  obtain ⟨-, f2, -, -, -, -, -⟩ := transfer_cycle_fields s
  have hr : (transfer_cycle s).master_rx_buffer = g_slave_tx_buffer.getD i [] := by
    rw [f2, hc, handler_stagedBytes s i ht, if_pos hi4]
  exact ⟨hr, by rw [hr]; exact table_row_length i hi4⟩

/-- Witness for C1 at command byte 0 in the freshly initialized state. -/
theorem reply_matches_table_row_witness :
    (transfer_cycle initState).master_rx_buffer = g_slave_tx_buffer.getD 0 []
  ∧ (transfer_cycle initState).master_rx_buffer.length = SLAVE_PACKET_LENGTH :=
  reply_matches_table_row 0 (by decide) initState rfl rfl

/-- Claim C2: for every command byte `i` with
`SLAVE_NB_OF_COMMANDS ≤ i ≤ 255`, the command handler stages table
row 0 as a fallback reply of the fixed 8-byte length; the transfer
still completes with an 8-byte reply, and the staged window lies
entirely inside the slave transmit table memory. -/
theorem reply_fallback_out_of_range (i : Nat) (hi : SLAVE_NB_OF_COMMANDS ≤ i)
    (hi255 : i ≤ 255) (s : SystemState)
    (ht : s.slave_tx_buffer = g_slave_tx_buffer)
    (hc : s.master_tx_buffer.headD 0 = i) :
    (transfer_cycle s).master_rx_buffer = g_slave_tx_buffer.getD 0 []
  ∧ (transfer_cycle s).master_rx_buffer.length = SLAVE_PACKET_LENGTH
  ∧ (transfer_cycle s).staged.offset + (transfer_cycle s).staged.length
      ≤ (g_slave_tx_buffer.flatten).length := by
  have hi4 : ¬ i < 4 := by
    have : (4 : Nat) ≤ i := hi
    omega
  obtain ⟨-, f2, -, -, f5, -, -⟩ := transfer_cycle_fields s
  obtain ⟨-, -, -, -, -, -, g7⟩ := cmd_handler_fields s [i]
  have hr : (transfer_cycle s).master_rx_buffer = g_slave_tx_buffer.getD 0 [] := by
    rw [f2, hc, handler_stagedBytes s i ht, if_neg hi4]
  refine ⟨hr, by rw [hr]; exact table_row_length 0 (by norm_num), ?_⟩
  rw [f5, hc, g7]
  simp only [List.headD]
  rw [if_neg (by exact hi4)]
  decide

/-- Witness for C2 at the out-of-range command byte 9. -/
theorem reply_fallback_out_of_range_witness :
    (transfer_cycle (frame_with_cmd 9)).master_rx_buffer = g_slave_tx_buffer.getD 0 []
  ∧ (transfer_cycle (frame_with_cmd 9)).master_rx_buffer.length = SLAVE_PACKET_LENGTH
  ∧ (transfer_cycle (frame_with_cmd 9)).staged.offset
      + (transfer_cycle (frame_with_cmd 9)).staged.length
      ≤ (g_slave_tx_buffer.flatten).length :=
  reply_fallback_out_of_range 9 (by decide) (by decide) (frame_with_cmd 9) rfl rfl

/-- Claim C3: across consecutive loop iterations the transmitted command
byte advances by exactly 1 modulo 4: the byte transmitted in iteration
`n + 1` equals (byte of iteration `n` + 1) mod 4, and starting from 0
the transmitted sequence is `n mod 4`, i.e. 0,1,2,3,0,1,2,3,... with no
skips or repeats. -/
theorem cmd_sequence_cyclic (n : Nat) :
    cmd_transmitted (n + 1) = (cmd_transmitted n + 1) % 4
  ∧ cmd_transmitted n = n % 4 := by
  obtain ⟨h1, -, -⟩ := controller_run_inv n
  obtain ⟨h2, -, -⟩ := controller_run_inv (n + 1)
  unfold cmd_transmitted
  rw [h1, h2]
  refine ⟨?_, rfl⟩
  show (n + 1) % 4 = (n % 4 + 1) % 4
  omega

/-- Claim C4: the concrete end-to-end command-to-reply mapping: command
0 yields row 0's bytes, commands 1..3 their rows, and out-of-range
command 9 falls back to row 0. -/
theorem end_to_end_reply_map :
    (transfer_cycle (frame_with_cmd 0)).master_rx_buffer
      = [0x01, 0x02, 0x03, 0x04, 0x05, 0x06, 0x07, 0x08]
  ∧ (transfer_cycle (frame_with_cmd 1)).master_rx_buffer
      = [0x11, 0x12, 0x13, 0x14, 0x15, 0x16, 0x17, 0x18]
  ∧ (transfer_cycle (frame_with_cmd 2)).master_rx_buffer
      = [0x21, 0x22, 0x23, 0x24, 0x25, 0x26, 0x27, 0x28]
  ∧ (transfer_cycle (frame_with_cmd 3)).master_rx_buffer
      = [0x31, 0x32, 0x33, 0x34, 0x35, 0x36, 0x37, 0x38]
  ∧ (transfer_cycle (frame_with_cmd 9)).master_rx_buffer
      = [0x01, 0x02, 0x03, 0x04, 0x05, 0x06, 0x07, 0x08] := by
  decide

/-- Counterexample to C5 as stated: the master receive buffer
`g_master_rx_buffer` holds 8 bytes, strictly fewer than the
command+turnaround+packet total of 13 bytes the claim requires. -/
theorem master_rx_buffer_undersized :
    initState.master_rx_buffer.length <
      COMMAND_BYTE_SIZE + NB_OF_TURNAROUND_BYTES + SLAVE_PACKET_LENGTH := by
  decide

/-- Claim C5 (amended): each loop iteration performs one blocking block
transfer sending the 5-byte (command+turnaround) buffer and receiving
exactly the `SLAVE_PACKET_LENGTH` = 8 reply bytes into the 8-byte
master receive buffer; the full frame totals 13 bytes, of which the
master-side buffer captures only the reply portion. -/
theorem master_transfer_sizes (n : Nat) :
    (controller_run n).master_tx_buffer.length
      = COMMAND_BYTE_SIZE + NB_OF_TURNAROUND_BYTES
  ∧ initState.master_rx_buffer.length = SLAVE_PACKET_LENGTH
  ∧ (controller_run (n + 1)).master_rx_buffer.length = SLAVE_PACKET_LENGTH
  ∧ COMMAND_BYTE_SIZE + NB_OF_TURNAROUND_BYTES + SLAVE_PACKET_LENGTH = 13 := by
  obtain ⟨htx, hidx, htbl⟩ := controller_run_inv n
  have hstep : controller_run (n + 1) = transfer_cycle (controller_run n) := by
    unfold controller_run
    exact Function.iterate_succ_apply' transfer_cycle n initState
  obtain ⟨-, f2, -, -, -, -, -⟩ := transfer_cycle_fields (controller_run n)
  have hmod : n % 4 < 4 := Nat.mod_lt n (by norm_num)
  refine ⟨by rw [htx]; rfl, rfl, ?_, rfl⟩
  rw [hstep, f2, htx]
  show (stagedBytes (spi1_slave_cmd_handler (controller_run n) [n % 4])).length
    = SLAVE_PACKET_LENGTH
  rw [handler_stagedBytes (controller_run n) (n % 4) htbl, if_pos hmod]
  exact table_row_length (n % 4) hmod

/-- Claim C6: overflow recovery for either endpoint re-enables only the
signalled SPI peripheral; the response table, the command index, the
transmit buffer and the staged response are untouched, and the next
transfer cycle after recovery produces exactly the reply, transmit
buffer and command index a cycle from the pre-overflow state would. -/
theorem overflow_recovery_preserves_state (core : Nat) (s : SystemState) :
    (mss_spi_overflow_handler core s).slave_tx_buffer = s.slave_tx_buffer
  ∧ (mss_spi_overflow_handler core s).cmd_idx = s.cmd_idx
  ∧ (mss_spi_overflow_handler core s).master_tx_buffer = s.master_tx_buffer
  ∧ (mss_spi_overflow_handler core s).staged = s.staged
  ∧ (mss_spi_overflow_handler core s).spi1_on
      = (if core ≠ 0 then true else s.spi1_on)
  ∧ (mss_spi_overflow_handler core s).spi0_on
      = (if core = 0 then true else s.spi0_on)
  ∧ (transfer_cycle (mss_spi_overflow_handler core s)).master_rx_buffer
      = (transfer_cycle s).master_rx_buffer
  ∧ (transfer_cycle (mss_spi_overflow_handler core s)).master_tx_buffer
      = (transfer_cycle s).master_tx_buffer
  ∧ (transfer_cycle (mss_spi_overflow_handler core s)).cmd_idx
      = (transfer_cycle s).cmd_idx := by
  unfold mss_spi_overflow_handler
  by_cases hc : core = 0
  · have hnn : ¬ core ≠ 0 := by simp [hc]
    rw [if_neg hnn, if_neg hnn, if_pos hc]
    exact ⟨rfl, rfl, rfl, rfl, rfl, rfl, rfl, rfl, rfl⟩
  · have hnn : core ≠ 0 := hc
    rw [if_pos hnn, if_pos hnn, if_neg hc]
    exact ⟨rfl, rfl, rfl, rfl, rfl, rfl, rfl, rfl, rfl⟩

/-- Claim C7: the command handler mutates nothing but the staged
response (not the table, not the command index, not the buffers); the
table also survives every transfer cycle, every overflow recovery and
every run of the loop; hence staging the same command byte twice, or in
any two loop iterations, yields identical reply bytes. -/
theorem dispatch_idempotent_no_mutation (s : SystemState) (c k n m : Nat) :
    (spi1_slave_cmd_handler s [c]).slave_tx_buffer = s.slave_tx_buffer
  ∧ (spi1_slave_cmd_handler s [c]).cmd_idx = s.cmd_idx
  ∧ (spi1_slave_cmd_handler s [c]).master_tx_buffer = s.master_tx_buffer
  ∧ (spi1_slave_cmd_handler s [c]).master_rx_buffer = s.master_rx_buffer
  ∧ (transfer_cycle s).slave_tx_buffer = s.slave_tx_buffer
  ∧ (mss_spi_overflow_handler k s).slave_tx_buffer = s.slave_tx_buffer
  ∧ (controller_run n).slave_tx_buffer = g_slave_tx_buffer
  ∧ stagedBytes (spi1_slave_cmd_handler (spi1_slave_cmd_handler s [c]) [c])
      = stagedBytes (spi1_slave_cmd_handler s [c])
  ∧ stagedBytes (spi1_slave_cmd_handler (controller_run n) [c])
      = stagedBytes (spi1_slave_cmd_handler (controller_run m) [c]) := by
  obtain ⟨-, -, htbl_n⟩ := controller_run_inv n
  obtain ⟨-, -, htbl_m⟩ := controller_run_inv m
  have hover : (mss_spi_overflow_handler k s).slave_tx_buffer
      = s.slave_tx_buffer := by
    unfold mss_spi_overflow_handler
    by_cases hk : k = 0
    · rw [if_neg (by simp [hk])]
    · rw [if_pos hk]
  refine ⟨rfl, rfl, rfl, rfl, rfl, hover, htbl_n, rfl, ?_⟩
  rw [handler_stagedBytes (controller_run n) c htbl_n,
      handler_stagedBytes (controller_run m) c htbl_m]

/-- Claim C8: in every loop iteration the master transmits exactly the
5 bytes `{cmd_idx, 0x01, 0x02, 0x03, 0xAA}`: only byte 0 varies, and
bytes 1..4 keep the static filler values across all iterations. -/
theorem tx_buffer_static_filler (n : Nat) :
    (controller_run n).master_tx_buffer = [n % 4, 0x01, 0x02, 0x03, 0xAA]
  ∧ (controller_run n).master_tx_buffer.length
      = COMMAND_BYTE_SIZE + NB_OF_TURNAROUND_BYTES
  ∧ (controller_run n).master_tx_buffer.drop COMMAND_BYTE_SIZE
      = [0x01, 0x02, 0x03, 0xAA] := by
  obtain ⟨h, -, -⟩ := controller_run_inv n
  rw [h]
  exact ⟨rfl, rfl, rfl⟩

/-- Claim C9: before any command byte has been handled, the slave's
staged transmission set up by `MSS_SPI_set_slave_block_buffers` starts
at `&g_slave_tx_buffer[0][0]` (offset 0) with length
`COMMAND_BYTE_SIZE + NB_OF_TURNAROUND_BYTES` = 5: the first 5 bytes of
table row 0, not a full 8-byte packet. -/
theorem initial_staged_prefix :
    initState.staged.offset = 0
  ∧ initState.staged.length = COMMAND_BYTE_SIZE + NB_OF_TURNAROUND_BYTES
  ∧ stagedBytes initState
      = (g_slave_tx_buffer.getD 0 []).take (COMMAND_BYTE_SIZE + NB_OF_TURNAROUND_BYTES)
  ∧ stagedBytes initState = [0x01, 0x02, 0x03, 0x04, 0x05]
  ∧ initState.staged.length ≠ SLAVE_PACKET_LENGTH := by
  decide

/-- Claim C10: the overflow handler treats its endpoint identifier as a
boolean: every nonzero identifier (up to 255) re-enables the slave
peripheral SPI1 and leaves SPI0's status alone, while identifier 0
re-enables the master peripheral SPI0 and leaves SPI1's status alone —
exactly one endpoint per invocation. -/
theorem overflow_selects_by_nonzero (core : Nat) (h1 : core ≠ 0)
    (h255 : core ≤ 255) (s : SystemState) :
    (mss_spi_overflow_handler core s).spi1_on = true
  ∧ (mss_spi_overflow_handler core s).spi0_on = s.spi0_on
  ∧ (mss_spi_overflow_handler 0 s).spi0_on = true
  ∧ (mss_spi_overflow_handler 0 s).spi1_on = s.spi1_on := by
  unfold mss_spi_overflow_handler
  rw [if_pos h1]
  refine ⟨rfl, rfl, ?_, ?_⟩ <;>
  · rw [if_neg (by simp)]

/-- Witness for C10 at the nonzero, non-one identifier 2 and a state in
which SPI0 is disabled (so "leaves SPI0 alone" is not vacuous). -/
theorem overflow_selects_by_nonzero_witness :
    (mss_spi_overflow_handler 2 { initState with spi0_on := false }).spi1_on = true
  ∧ (mss_spi_overflow_handler 2 { initState with spi0_on := false }).spi0_on
      = ({ initState with spi0_on := false } : SystemState).spi0_on
  ∧ (mss_spi_overflow_handler 0 { initState with spi0_on := false }).spi0_on = true
  ∧ (mss_spi_overflow_handler 0 { initState with spi0_on := false }).spi1_on
      = ({ initState with spi0_on := false } : SystemState).spi1_on :=
  overflow_selects_by_nonzero 2 (by decide) (by decide)
    { initState with spi0_on := false }

end SpiLoopback
